import Mathlib

/-!
Shallow embedding of the pose-tracking and gesture-manipulation orchestrator of
`ar-engine/src/js/main.js` (class `ARApp`).

JS numbers are modelled over an arbitrary linear ordered field `K`
(instantiated at `ℚ` or `ℝ` in the theorems); `Math.sqrt`, `Math.tan` and
`Math.PI` are supplied through a `RealFns K` record, instantiated with
`Real.sqrt`, `Real.tan`, `Real.pi` at `K = ℝ`.  The opaque Wasm view-matrix
payload is a type parameter `M`.  Methods that mutate `this` become functions
`ARState K M → ARState K M`; the per-tick processing additionally returns the
list of pose-manager calls that occurred, so that suppression of the sensor
path in hybrid mode can be stated.  DOM resources created by `placeCube`
(video element, `VideoTexture`, mesh geometry/material, camera children) are
tracked by a ledger of numeric ids so that disposal can be stated.
-/

/-- Tracking mode: `'sensor' | 'slam' | 'hybrid'` (main.js line 68). -/
inductive TrackingMode
  | sensor
  | slam
  | hybrid
deriving DecidableEq, Repr

/-- A device-orientation sample `{alpha, beta, gamma}`.  `onDeviceOrientation`
only rejects events with `alpha === null`, so the stored `alpha` is always a
number while `beta`/`gamma` may be `null` (main.js lines 318-332). -/
structure OriSample (K : Type) where
  alpha : K
  beta : Option K
  gamma : Option K
deriving DecidableEq, Repr

/-- Modelled from the spec: `CameraPoseManager.js` is imported by main.js but
its source is not under src/.  Spec §4.1 describes `applyViewMatrix` as
"decompose the VO 4×4 view matrix into position+orientation, blending toward
the new value when `smoothed` is requested", and `applyDeviceOrientation` as
recomputing the orientation from the three angles plus the screen rotation.
Since that pose arithmetic lives in the missing file, the authoritative camera
pose is represented symbolically by the computation that produced it. -/
inductive CameraPose (K M : Type)
  | initialPose
  | fromViewMatrix (m : M) (prev : CameraPose K M) (smoothed : Bool)
  | fromDeviceOri (alpha : K) (beta gamma : Option K) (screenOri : K)
deriving DecidableEq

/-- Modelled from the spec: the state of the `CameraPoseManager` collaborator
(missing file, spec §4.1): the authoritative camera pose plus the
`isTracking` flag that main.js reads at line 771 (`cameraPoseManager?.isTracking`). -/
structure PoseMgr (K M : Type) where
  isTracking : Bool
  pose : CameraPose K M
deriving DecidableEq

/-- Modelled from the spec: `applyViewMatrix(matrix, smoothed)` makes the
VO-derived (optionally smoothed) pose authoritative.  main.js only invokes it
for a frame result with `tracking = true` (line 751-753), and spec §4.3/§8
require sensor suppression exactly on such ticks, so the manager records that
VO is actively tracking. -/
def PoseMgr.applyViewMatrix {K M : Type} (mgr : PoseMgr K M) (m : M) (smoothed : Bool) :
    PoseMgr K M :=
  { mgr with isTracking := true, pose := CameraPose.fromViewMatrix m mgr.pose smoothed }

/-- Modelled from the spec: `applyDeviceOrientation(alpha, beta, gamma,
screenOrientation)` overwrites the camera orientation from the sensor sample
(spec §4.1). -/
def PoseMgr.applyDeviceOri {K M : Type} (mgr : PoseMgr K M) (a : K) (b g : Option K)
    (so : K) : PoseMgr K M :=
  { mgr with pose := CameraPose.fromDeviceOri a b g so }

/-- Modelled from the spec: `reset()` clears the reference orientation and any
smoothing accumulator (spec §4.1), re-establishing the initial pose. -/
def PoseMgr.resetMgr {K M : Type} (_ : PoseMgr K M) : PoseMgr K M :=
  { isTracking := false, pose := CameraPose.initialPose }

/-- The optional chain `this.cameraPoseManager?.isTracking` (main.js line 771):
`undefined` is falsy when the manager is absent. -/
def mgrIsTracking {K M : Type} : Option (PoseMgr K M) → Bool
  | some mgr => mgr.isTracking
  | none => false

/-- The Wasm Visual Odometry engine as held by `ARApp.visualOdometry`:
`new VisualOdometry()` yields `initOk = false`; a fulfilled `init` promise sets
`initOk = true`; `autoConfigureCamera(w, h)` records the camera intrinsics
configuration (main.js lines 803-832). -/
structure VOEngine where
  initOk : Bool
  camConfig : Option (Nat × Nat)
deriving DecidableEq, Repr

/-- The frame result produced by `visualOdometry.processFrame`
(`{tracking, viewMatrix, featureCount}`). -/
structure VOResult (M : Type) where
  tracking : Bool
  viewMatrix : M
  featureCount : Nat
deriving DecidableEq

/-- Outcome of the two `await` points in `initVisualOdometry` (main.js lines
803-832): the dynamic `import('./VisualOdometry.js')` may reject, the engine's
`init` promise may reject, or both may fulfil. -/
inductive VOInitOutcome
  | importFails
  | initRejects
  | succeeds
deriving DecidableEq, Repr

/-- The gesture state record `this.gesture` (main.js lines 49-60). -/
structure Gesture (K : Type) where
  isDragging : Bool
  isPinching : Bool
  dragStartX : K
  dragStartY : K
  objStartX : K
  objStartY : K
  pinchStartDist : K
  pinchStartScale : K
deriving DecidableEq, Repr

/-- The `ARApp` fields relevant to the orchestrator, plus a ledger of the DOM /
GPU resources created by `placeCube` (video elements currently not paused,
textures not disposed, geometries/materials not disposed, meshes attached to
the camera), keyed by allocation ids drawn from `nextId`. -/
structure ARState (K M : Type) where
  trackingMode : TrackingMode
  isRunning : Bool
  isReady : Bool
  visualOdometry : Option VOEngine
  cameraPoseManager : Option (PoseMgr K M)
  hasVideo : Bool
  deviceOrientation : OriSample K
  initialOrientation : Option (OriSample K)
  gesture : Gesture K
  lastTap : Int
  hudCube : Option Nat
  hudVideo : Option Nat
  hudVideoTexture : Option Nat
  hudCubeBaseScale : K
  hudCubeScale : K
  hudCubePosX : K
  hudCubePosY : K
  currentVideoSrc : String
  videosPlaying : List Nat
  texturesActive : List Nat
  geomsLive : List Nat
  matsLive : List Nat
  camChildren : List Nat
  nextId : Nat
deriving DecidableEq

/-- A call made to the camera-pose manager (or directly to the camera) during
one `animate` tick; used to state which pose source wrote the camera. -/
inductive MgrCall (K M : Type)
  | viewMatrix (m : M) (smoothed : Bool)
  | deviceOri (alpha : K) (beta gamma : Option K) (screenOri : K)
  | directQuat (alpha : K) (beta gamma : Option K) (screenOri : K)
deriving DecidableEq

/-- Per-tick environment: the video element's frame dimensions, the Wasm
`processFrame` callback, and `window.orientation || 0`. -/
structure TickEnv (K M : Type) where
  videoWidth : Nat
  videoHeight : Nat
  processFrame : Nat → Nat → Option (VOResult M)
  screenOri : K

/-- View environment read by `screenPixelToLocal`: `this.camera.fov` (degrees)
and `window.innerHeight`. -/
structure ViewEnv (K : Type) where
  cameraFov : K
  screenHeight : K

/-- The transcendental functions the handlers use (`Math.sqrt`, `Math.tan`,
`Math.PI`), abstracted so the state machine stays executable over `ℚ`. -/
structure RealFns (K : Type) where
  sqrt : K → K
  tan : K → K
  piVal : K

/-- The intended instantiation at `K = ℝ`, stated as a proposition so the
record can be referenced without a dedicated (non-executable) definition:
theorems over `ℝ` take a `RealFns ℝ` argument constrained by `IsRealFns`. -/
def IsRealFns (fns : RealFns ℝ) : Prop :=
  fns.sqrt = Real.sqrt ∧ fns.tan = Real.tan ∧ fns.piVal = Real.pi

/-- `getTouchDistance(touches)` (main.js lines 476-480):
`sqrt(dx*dx + dy*dy)` between the first two touch points. -/
def getTouchDistance {K : Type} [LinearOrderedField K] (fns : RealFns K)
    (t0 t1 : K × K) : K :=
  fns.sqrt ((t0.1 - t1.1) * (t0.1 - t1.1) + (t0.2 - t1.2) * (t0.2 - t1.2))

/-- `THREE.MathUtils.degToRad`: degrees to radians. -/
def degToRad {K : Type} [LinearOrderedField K] (fns : RealFns K) (deg : K) : K :=
  deg * fns.piVal / 180

/-- `screenPixelToLocal()` (main.js lines 486-492): the camera-local size of one
screen pixel at the fixed hudCube depth `1.5`:
`(2 * 1.5 * tan(fovRad / 2)) / window.innerHeight`. -/
def screenPixelToLocal {K : Type} [LinearOrderedField K] (fns : RealFns K)
    (view : ViewEnv K) : K :=
  2 * (3 / 2) * fns.tan (degToRad fns view.cameraFov / 2) / view.screenHeight

/-- `cleanupHud()` (main.js lines 640-656): detach the mesh from the camera and
dispose its geometry and material; dispose the video texture; pause the video
element and drop all three references. -/
def cleanupHud {K M : Type} [LinearOrderedField K] (s : ARState K M) : ARState K M :=
  let s1 :=
    match s.hudCube with
    | some m =>
        { s with camChildren := s.camChildren.erase m
                 geomsLive := s.geomsLive.erase m
                 matsLive := s.matsLive.erase m
                 hudCube := none }
    | none => s
  let s2 :=
    match s1.hudVideoTexture with
    | some t =>
        { s1 with texturesActive := s1.texturesActive.erase t
                  hudVideoTexture := none }
    | none => s1
  match s2.hudVideo with
  | some v =>
      { s2 with videosPlaying := s2.videosPlaying.erase v
                hudVideo := none }
  | none => s2

/-- `placeCube(videoSrc = null)` (main.js lines 499-635): bail out when the app
is not ready; optionally update `currentVideoSrc`; clean up the previous HUD
object; then create a fresh video element (id `nextId`), a fresh
`VideoTexture` (id `nextId + 1`) and a fresh mesh (id `nextId + 2`), attach the
mesh to the camera at `(0, 0, -1.5)` with base scale `1`. -/
def placeCube {K M : Type} [LinearOrderedField K] (s : ARState K M)
    (videoSrc : Option String) : ARState K M :=
  if s.isReady = false then s
  else
    let s0 :=
      match videoSrc with
      | some src => { s with currentVideoSrc := src }
      | none => s
    let s1 := cleanupHud s0
    let vId := s1.nextId
    let tId := s1.nextId + 1
    let mId := s1.nextId + 2
    { s1 with
      hudVideo := some vId
      videosPlaying := vId :: s1.videosPlaying
      hudVideoTexture := some tId
      texturesActive := tId :: s1.texturesActive
      hudCube := some mId
      geomsLive := mId :: s1.geomsLive
      matsLive := mId :: s1.matsLive
      camChildren := mId :: s1.camChildren
      hudCubePosX := 0
      hudCubePosY := 0
      hudCubeBaseScale := 1
      hudCubeScale := 1
      nextId := s1.nextId + 3 }

/-- The `touchstart` handler (main.js lines 350-368): one finger with an
existing HUD object starts a drag, two fingers start a pinch; anything else is
ignored. -/
def touchstart {K M : Type} [LinearOrderedField K] (fns : RealFns K)
    (s : ARState K M) (touches : List (K × K)) : ARState K M :=
  match touches, s.hudCube with
  | [t], some _ =>
      { s with gesture := { s.gesture with
            isDragging := true
            isPinching := false
            dragStartX := t.1
            dragStartY := t.2
            objStartX := s.hudCubePosX
            objStartY := s.hudCubePosY } }
  | [t0, t1], some _ =>
      { s with gesture := { s.gesture with
            isDragging := false
            isPinching := true
            pinchStartDist := getTouchDistance fns t0 t1
            pinchStartScale := s.hudCubeBaseScale } }
  | _, _ => s

/-- The `touchmove` handler (main.js lines 370-392): while dragging with one
finger, move the HUD object by the screen delta scaled through
`screenPixelToLocal` (screen Y inverted); while pinching with two fingers,
rescale by the distance quotient, clamped to `[0.3, 20.0]`. -/
def touchmove {K M : Type} [LinearOrderedField K] (fns : RealFns K)
    (view : ViewEnv K) (s : ARState K M) (touches : List (K × K)) : ARState K M :=
  if s.hudCube = none then s
  else
    match touches with
    | [t] =>
        if s.gesture.isDragging then
          let dx := t.1 - s.gesture.dragStartX
          let dy := t.2 - s.gesture.dragStartY
          let k := screenPixelToLocal fns view
          { s with hudCubePosX := s.gesture.objStartX + dx * k
                   hudCubePosY := s.gesture.objStartY - dy * k }
        else s
    | [t0, t1] =>
        if s.gesture.isPinching then
          let dist := getTouchDistance fns t0 t1
          let newScale :=
            max (3 / 10) (min 20 (s.gesture.pinchStartScale * (dist / s.gesture.pinchStartDist)))
          { s with hudCubeBaseScale := newScale
                   hudCubeScale := newScale }
        else s
    | _ => s

/-- The `touchend` handler (main.js lines 394-421).  With no remaining touches:
a short drag (net displacement under 10px on both axes) is a tap, and a second
tap within 300ms of the previous one replaces the HUD object (`placeCube`);
`lastTap` is updated on every tap; both gesture flags are cleared.  With one
remaining touch: pinch hands over to drag, re-anchored at the remaining point
and the current HUD position. -/
def touchend {K M : Type} [LinearOrderedField K] (s : ARState K M)
    (remaining changed : List (K × K)) (now : Int) : ARState K M :=
  match remaining with
  | [] =>
      let s1 :=
        if s.gesture.isDragging = true ∧ s.gesture.isPinching = false then
          let cx := match changed with | c :: _ => c.1 | [] => 0
          let cy := match changed with | c :: _ => c.2 | [] => 0
          let dx := |cx - s.gesture.dragStartX|
          let dy := |cy - s.gesture.dragStartY|
          if dx < 10 ∧ dy < 10 then
            let s2 := if now - s.lastTap < 300 then placeCube s none else s
            { s2 with lastTap := now }
          else s
        else s
      { s1 with gesture := { s1.gesture with isDragging := false, isPinching := false } }
  | [t] =>
      { s with gesture := { s.gesture with
            isPinching := false
            isDragging := true
            dragStartX := t.1
            dragStartY := t.2
            objStartX := if s.hudCube ≠ none then s.hudCubePosX else 0
            objStartY := if s.hudCube ≠ none then s.hudCubePosY else 0 } }
  | _ => s

/-- The `wheel` handler (main.js lines 452-459): scale by `0.9` (scroll down)
or `1.1` (scroll up), clamped to `[0.3, 5.0]`. -/
def wheelHandler {K M : Type} [LinearOrderedField K] (s : ARState K M)
    (deltaY : K) : ARState K M :=
  if s.hudCube = none then s
  else
    let d : K := if 0 < deltaY then 9 / 10 else 11 / 10
    let ns := max (3 / 10) (min 5 (s.hudCubeBaseScale * d))
    { s with hudCubeBaseScale := ns
             hudCubeScale := ns }

/-- `onDeviceOrientation(event)` (main.js lines 318-332): a sample with
`alpha === null` is discarded; otherwise the latest sample is stored and, if no
reference orientation exists yet, the sample also becomes the reference. -/
def onDeviceOrientation {K M : Type} [LinearOrderedField K] (s : ARState K M)
    (alpha : Option K) (beta gamma : Option K) : ARState K M :=
  match alpha with
  | none => s
  | some a =>
      let d : OriSample K := { alpha := a, beta := beta, gamma := gamma }
      let s1 := { s with deviceOrientation := d }
      if s1.initialOrientation = none then
        { s1 with initialOrientation := some d }
      else s1

/-- Fold a sequence of device-orientation events through `onDeviceOrientation`. -/
def runOri {K M : Type} [LinearOrderedField K] (s : ARState K M)
    (evs : List (Option K × Option K × Option K)) : ARState K M :=
  evs.foldl (fun st e => onDeviceOrientation st e.1 e.2.1 e.2.2) s

/-- The first event of a sequence whose primary angle is non-null, as the
orientation sample it would store. -/
def firstNonNull {K : Type} : List (Option K × Option K × Option K) → Option (OriSample K)
  | [] => none
  | (none, _, _) :: rest => firstNonNull rest
  | (some a, b, g) :: _ => some { alpha := a, beta := b, gamma := g }

/-- `processSLAM()` (main.js lines 722-762): skip without a VO engine or video
element, or while the video has no frame yet; otherwise downscale the frame by
`0.5` (`Math.floor(videoWidth * 0.5)` is `videoWidth / 2` on `ℕ`), feed it to
`processFrame`, and on a result with `tracking = true` apply the view matrix
with smoothing.  (The 2D process canvas is bookkeeping with no pose effect and
is not modelled.  If the result is tracking while `cameraPoseManager` is
absent the source would throw; that state is unreachable after `init` and is
modelled as a skip.) -/
def processSLAM {K M : Type} [LinearOrderedField K] (s : ARState K M)
    (env : TickEnv K M) : ARState K M × List (MgrCall K M) :=
  if s.visualOdometry = none ∨ s.hasVideo = false then (s, [])
  else if env.videoWidth = 0 then (s, [])
  else
    let w := env.videoWidth / 2
    let h := env.videoHeight / 2
    match env.processFrame w h with
    | some r =>
        if r.tracking = true then
          match s.cameraPoseManager with
          | some mgr =>
              ({ s with cameraPoseManager := some (mgr.applyViewMatrix r.viewMatrix true) },
               [MgrCall.viewMatrix r.viewMatrix true])
          | none => (s, [])
        else (s, [])
    | none => (s, [])

/-- `updateCameraFromSensor()` (main.js lines 767-798): no-op without a
reference orientation; in hybrid mode a currently-tracking pose manager
suppresses the sensor update; otherwise the stored orientation sample is
applied through the manager, or (fallback, manager absent) written to the
camera quaternion directly — the fallback touches only the camera, recorded
here as a `directQuat` call. -/
def updateCameraFromSensor {K M : Type} [LinearOrderedField K] (s : ARState K M)
    (env : TickEnv K M) : ARState K M × List (MgrCall K M) :=
  if s.initialOrientation = none then (s, [])
  else if s.trackingMode = TrackingMode.hybrid ∧ mgrIsTracking s.cameraPoseManager = true then
    (s, [])
  else
    match s.cameraPoseManager with
    | some mgr =>
        ({ s with cameraPoseManager := some (mgr.applyDeviceOri
             s.deviceOrientation.alpha s.deviceOrientation.beta
             s.deviceOrientation.gamma env.screenOri) },
         [MgrCall.deviceOri s.deviceOrientation.alpha s.deviceOrientation.beta
            s.deviceOrientation.gamma env.screenOri])
    | none =>
        (s, [MgrCall.directQuat s.deviceOrientation.alpha s.deviceOrientation.beta
               s.deviceOrientation.gamma env.screenOri])

/-- One tick of `animate()` (main.js lines 696-717): stop when not running;
`slam`/`hybrid` run SLAM frame processing, then `sensor`/`hybrid` run the
sensor update; the video-texture refresh and the render call have no state in
this model.  The second component collects the pose-source calls of the tick. -/
def animate {K M : Type} [LinearOrderedField K] (s : ARState K M)
    (env : TickEnv K M) : ARState K M × List (MgrCall K M) :=
  if s.isRunning = false then (s, [])
  else
    let p1 :=
      if s.trackingMode = TrackingMode.slam ∨ s.trackingMode = TrackingMode.hybrid then
        processSLAM s env
      else (s, [])
    let p2 :=
      if p1.1.trackingMode = TrackingMode.sensor ∨ p1.1.trackingMode = TrackingMode.hybrid then
        updateCameraFromSensor p1.1 env
      else (p1.1, [])
    (p2.1, p1.2 ++ p2.2)

/-- `initVisualOdometry()` (main.js lines 803-832), indexed by the outcome of
its two `await` points.  A rejecting dynamic import leaves `visualOdometry`
untouched and falls back to `sensor`.  A rejecting `init` promise also falls
back to `sensor`, but `this.visualOdometry = new VisualOdometry()` has already
run, so the uninitialized engine instance stays stored.  On success the engine
is initialized, the camera is auto-configured when the video has a frame, and
the mode becomes `hybrid`.  Returns the JS boolean result as well. -/
def initVisualOdometry {K M : Type} [LinearOrderedField K] (s : ARState K M)
    (outcome : VOInitOutcome) (videoWidth videoHeight : Nat) : ARState K M × Bool :=
  match outcome with
  | VOInitOutcome.importFails =>
      ({ s with trackingMode := TrackingMode.sensor }, false)
  | VOInitOutcome.initRejects =>
      ({ s with visualOdometry := some { initOk := false, camConfig := none }
                trackingMode := TrackingMode.sensor }, false)
  | VOInitOutcome.succeeds =>
      let engine : VOEngine :=
        { initOk := true
          camConfig := if s.hasVideo = true ∧ 0 < videoWidth then
              some (videoWidth, videoHeight)
            else none }
      ({ s with visualOdometry := some engine
                trackingMode := TrackingMode.hybrid }, true)

/-- `setTrackingMode(mode)` (main.js lines 838-847): store the requested mode;
entering `slam` or `hybrid` without a VO engine triggers the (asynchronous)
lazy VO initialization, whose eventual outcome is the `outcome` argument. -/
def setTrackingMode {K M : Type} [LinearOrderedField K] (s : ARState K M)
    (mode : TrackingMode) (outcome : VOInitOutcome)
    (videoWidth videoHeight : Nat) : ARState K M :=
  let s1 := { s with trackingMode := mode }
  if (mode = TrackingMode.slam ∨ mode = TrackingMode.hybrid) ∧ s1.visualOdometry = none then
    (initVisualOdometry s1 outcome videoWidth videoHeight).1
  else s1

/-- `resetPose()` (main.js lines 852-861): reset the pose manager and the VO
engine when present (the VO-internal reset does not change the fields modelled
here), and clear the captured reference orientation. -/
def resetPose {K M : Type} [LinearOrderedField K] (s : ARState K M) : ARState K M :=
  { s with cameraPoseManager := s.cameraPoseManager.map PoseMgr.resetMgr
           initialOrientation := none }

/-- `RGBtoUV` from the chroma-key fragment shader (main.js lines 579-584). -/
def RGBtoUV {K : Type} [LinearOrderedField K] (rgb : K × K × K) : K × K :=
  (rgb.1 * (-169 / 1000) + rgb.2.1 * (-331 / 1000) + rgb.2.2 * (1 / 2) + 1 / 2,
   rgb.1 * (1 / 2) + rgb.2.1 * (-419 / 1000) + rgb.2.2 * (-81 / 1000) + 1 / 2)

/-- GLSL `smoothstep(e0, e1, x)`:
`t = clamp((x - e0) / (e1 - e0), 0, 1); t * t * (3 - 2 * t)`. -/
def smoothstep {K : Type} [LinearOrderedField K] (e0 e1 x : K) : K :=
  let t := min 1 (max 0 ((x - e0) / (e1 - e0)))
  t * t * (3 - 2 * t)

/-- The chroma distance of the fragment shader (main.js lines 594-595):
Euclidean distance between the sampled color and the key color in the UV
chroma subspace. -/
def chromaDist {K : Type} [LinearOrderedField K] (fns : RealFns K)
    (texColor keyColor : K × K × K) : K :=
  let cv := ((RGBtoUV texColor).1 - (RGBtoUV keyColor).1,
             (RGBtoUV texColor).2 - (RGBtoUV keyColor).2)
  fns.sqrt (cv.1 * cv.1 + cv.2 * cv.2)

/-- The output alpha of the chroma-key fragment shader (main.js lines 597-599):
`texColor.a * smoothstep(similarity, similarity + smoothness, chromaDist)`. -/
def fragAlpha {K : Type} [LinearOrderedField K] (fns : RealFns K)
    (keyColor : K × K × K) (similarity smoothness : K)
    (texColor : K × K × K) (texAlpha : K) : K :=
  texAlpha * smoothstep similarity (similarity + smoothness) (chromaDist fns texColor keyColor)

/-- The vertical UV remapping of the fragment shader (main.js lines 588-590):
`croppedUV.y = cropBottom + vUv.y * (1 - cropTop - cropBottom)`. -/
def croppedUVy {K : Type} [LinearOrderedField K] (cropTop cropBottom vUvY : K) : K :=
  cropBottom + vUvY * (1 - cropTop - cropBottom)

/-- A concrete app state over `ℚ` (view-matrix payload `Unit`) used as input
for concrete evaluations: ready and running, in sensor mode, with one HUD
overlay (mesh 0, video 1, texture 2) placed and a well-formed resource ledger. -/
def baseState : ARState ℚ Unit :=
  { trackingMode := TrackingMode.sensor
    isRunning := true
    isReady := true
    visualOdometry := none
    cameraPoseManager := some { isTracking := false, pose := CameraPose.initialPose }
    hasVideo := true
    deviceOrientation := { alpha := 0, beta := some 0, gamma := some 0 }
    initialOrientation := none
    gesture := { isDragging := false, isPinching := false, dragStartX := 0,
                 dragStartY := 0, objStartX := 0, objStartY := 0,
                 pinchStartDist := 0, pinchStartScale := 1 }
    lastTap := 0
    hudCube := some 0
    hudVideo := some 1
    hudVideoTexture := some 2
    hudCubeBaseScale := 1
    hudCubeScale := 1
    hudCubePosX := 0
    hudCubePosY := 0
    currentVideoSrc := "greetgang.mp4"
    videosPlaying := [1]
    texturesActive := [2]
    geomsLive := [0]
    matsLive := [0]
    camChildren := [0]
    nextId := 3 }

/-- A concrete tick environment over `ℚ` whose VO engine always reports a
tracking result. -/
def trackingEnv : TickEnv ℚ Unit :=
  { videoWidth := 640
    videoHeight := 480
    processFrame := fun _ _ => some { tracking := true, viewMatrix := (), featureCount := 42 }
    screenOri := 0 }

/-- Identity stand-ins for the `Math` functions over `ℚ`, for concrete runs
that never reach `sqrt`/`tan`. -/
def ratFns : RealFns ℚ :=
  { sqrt := fun x => x, tan := fun x => x, piVal := 0 }

/-- Orientation samples used by the C9 witness. -/
def oriA : OriSample ℚ := { alpha := 5, beta := some 1, gamma := some 2 }

/-- The sample stored by the first non-null event of the C9 witness run. -/
def oriB : OriSample ℚ := { alpha := 10, beta := some 20, gamma := some 30 }

/-- A concrete hybrid-mode state over `ℚ` with an initialized VO engine. -/
def hybridState : ARState ℚ Unit :=
  { baseState with
    trackingMode := TrackingMode.hybrid
    visualOdometry := some { initOk := true, camConfig := none } }

/-- A state (over any field) currently dragging the overlay: one finger down
at (100, 100), overlay anchored at local (0, 0); used to instantiate the drag
claim at a concrete input. -/
def dragState (K : Type) [LinearOrderedField K] : ARState K Unit :=
  { trackingMode := TrackingMode.sensor
    isRunning := true
    isReady := true
    visualOdometry := none
    cameraPoseManager := some { isTracking := false, pose := CameraPose.initialPose }
    hasVideo := true
    deviceOrientation := { alpha := 0, beta := some 0, gamma := some 0 }
    initialOrientation := none
    gesture := { isDragging := true, isPinching := false, dragStartX := 100,
                 dragStartY := 100, objStartX := 0, objStartY := 0,
                 pinchStartDist := 0, pinchStartScale := 1 }
    lastTap := 0
    hudCube := some 0
    hudVideo := some 1
    hudVideoTexture := some 2
    hudCubeBaseScale := 1
    hudCubeScale := 1
    hudCubePosX := 0
    hudCubePosY := 0
    currentVideoSrc := "greetgang.mp4"
    videosPlaying := [1]
    texturesActive := [2]
    geomsLive := [0]
    matsLive := [0]
    camChildren := [0]
    nextId := 3 }

/-- A state (over any field) currently pinching the overlay: baseline
inter-point distance 100 and baseline scale 1. -/
def pinchState (K : Type) [LinearOrderedField K] : ARState K Unit :=
  { dragState K with
    gesture := { isDragging := false, isPinching := true, dragStartX := 0,
                 dragStartY := 0, objStartX := 0, objStartY := 0,
                 pinchStartDist := 100, pinchStartScale := 1 } }

/-! ## Helper lemmas: no operation other than the mode-set path touches
`trackingMode`. -/

theorem cleanupHud_trackingMode {K M : Type} [LinearOrderedField K] (s : ARState K M) :
    (cleanupHud s).trackingMode = s.trackingMode := by
  simp only [cleanupHud]
  repeat' split
  all_goals rfl

theorem placeCube_trackingMode {K M : Type} [LinearOrderedField K] (s : ARState K M)
    (videoSrc : Option String) :
    (placeCube s videoSrc).trackingMode = s.trackingMode := by
  simp only [placeCube]
  repeat' split
  all_goals simp [cleanupHud_trackingMode]

theorem processSLAM_trackingMode {K M : Type} [LinearOrderedField K] (s : ARState K M)
    (env : TickEnv K M) :
    (processSLAM s env).1.trackingMode = s.trackingMode := by
  simp only [processSLAM]
  repeat' split
  all_goals rfl

theorem updateCameraFromSensor_trackingMode {K M : Type} [LinearOrderedField K]
    (s : ARState K M) (env : TickEnv K M) :
    (updateCameraFromSensor s env).1.trackingMode = s.trackingMode := by
  simp only [updateCameraFromSensor]
  repeat' split
  all_goals rfl

theorem animate_trackingMode {K M : Type} [LinearOrderedField K] (s : ARState K M)
    (env : TickEnv K M) :
    (animate s env).1.trackingMode = s.trackingMode := by
  simp only [animate]
  repeat' split
  all_goals simp [processSLAM_trackingMode, updateCameraFromSensor_trackingMode]

theorem touchend_trackingMode {K M : Type} [LinearOrderedField K] (s : ARState K M)
    (remaining changed : List (K × K)) (now : Int) :
    (touchend s remaining changed now).trackingMode = s.trackingMode := by
  simp only [touchend]
  repeat' split
  all_goals simp [placeCube_trackingMode]

theorem touchstart_trackingMode {K M : Type} [LinearOrderedField K] (fns : RealFns K)
    (s : ARState K M) (touches : List (K × K)) :
    (touchstart fns s touches).trackingMode = s.trackingMode := by
  simp only [touchstart]
  repeat' split
  all_goals rfl

theorem touchmove_trackingMode {K M : Type} [LinearOrderedField K] (fns : RealFns K)
    (view : ViewEnv K) (s : ARState K M) (touches : List (K × K)) :
    (touchmove fns view s touches).trackingMode = s.trackingMode := by
  simp only [touchmove]
  repeat' split
  all_goals rfl

theorem wheelHandler_trackingMode {K M : Type} [LinearOrderedField K] (s : ARState K M)
    (deltaY : K) :
    (wheelHandler s deltaY).trackingMode = s.trackingMode := by
  simp only [wheelHandler]
  repeat' split
  all_goals rfl

theorem onDeviceOrientation_trackingMode {K M : Type} [LinearOrderedField K]
    (s : ARState K M) (a b g : Option K) :
    (onDeviceOrientation s a b g).trackingMode = s.trackingMode := by
  simp only [onDeviceOrientation]
  repeat' split
  all_goals rfl

theorem resetPose_trackingMode {K M : Type} [LinearOrderedField K] (s : ARState K M) :
    (resetPose s).trackingMode = s.trackingMode := rfl

/-! ## Claim theorems -/

/-- Claim C10: invoking the overlay placement operation (`placeCube`) while the
ready flag is false is a no-op: the returned state is the input state, so no
video element, texture or mesh is created and no existing overlay state is
disposed or modified. -/
theorem placeCube_notReady_noop {K M : Type} [LinearOrderedField K]
    (s : ARState K M) (videoSrc : Option String) (h : s.isReady = false) :
    placeCube s videoSrc = s := by
  simp [placeCube, h]

/-- Witness for C10 at a concrete non-ready state carrying an overlay. -/
theorem placeCube_notReady_noop_witness :
    ({ baseState with isReady := false } : ARState ℚ Unit).isReady = false ∧
      placeCube ({ baseState with isReady := false } : ARState ℚ Unit) (some "singgang2.mp4")
        = { baseState with isReady := false } :=
  ⟨rfl, placeCube_notReady_noop { baseState with isReady := false } (some "singgang2.mp4") rfl⟩

/-- Claim C2 counterexample: when the VO engine's `init` promise rejects, the
tracking mode does fall back to `sensor`, but `this.visualOdometry` keeps
pointing at the engine instance whose initialization failed (the claim's "no
half-initialized VO reference remains" is violated). -/
theorem voInit_initReject_reference_remains :
    (initVisualOdometry baseState VOInitOutcome.initRejects 640 480).1.trackingMode
        = TrackingMode.sensor ∧
      (initVisualOdometry baseState VOInitOutcome.initRejects 640 480).1.visualOdometry
        = some { initOk := false, camConfig := none } ∧
      (initVisualOdometry baseState VOInitOutcome.initRejects 640 480).1.visualOdometry
        ≠ none := by
  refine ⟨rfl, rfl, by simp [initVisualOdometry]⟩

/-- Claim C2 (amended): any VO initialization failure leaves the tracking mode
equal to `sensor`; when the dynamic import itself rejects, the stored VO
reference is untouched (still absent if it was absent), but when the engine's
`init` promise rejects, the freshly constructed, uninitialized engine instance
remains stored in `visualOdometry`. -/
theorem voInitFailure_mode_and_reference {K M : Type} [LinearOrderedField K]
    (s s' : ARState K M) (w h w' h' : Nat) :
    (initVisualOdometry s VOInitOutcome.importFails w h).1.trackingMode
        = TrackingMode.sensor ∧
      (initVisualOdometry s VOInitOutcome.importFails w h).1.visualOdometry
        = s.visualOdometry ∧
      (initVisualOdometry s' VOInitOutcome.initRejects w' h').1.trackingMode
        = TrackingMode.sensor ∧
      (initVisualOdometry s' VOInitOutcome.initRejects w' h').1.visualOdometry
        = some { initOk := false, camConfig := none } :=
  ⟨rfl, rfl, rfl, rfl⟩

/-- Claim C3 counterexample: with no VO engine present, an explicit request to
set mode `slam` whose lazily triggered VO initialization succeeds ends with
mode `hybrid`, not the requested `slam` — successful VO initialization does
change the mode. -/
theorem setMode_slam_success_yields_hybrid :
    (setTrackingMode baseState TrackingMode.slam VOInitOutcome.succeeds 640 480).trackingMode
        = TrackingMode.hybrid ∧
      TrackingMode.hybrid ≠ TrackingMode.slam := by
  refine ⟨rfl, by simp⟩

/-- Claim C3 (amended): the tracking mode changes only through the explicit
mode-set operation or through completion of the VO initialization that a
mode-set lazily triggers.  After `setTrackingMode m`: if a VO engine already
exists, or `m = sensor`, the mode equals `m`; if the request triggers lazy VO
initialization, the mode ends `hybrid` when the initialization succeeds and
`sensor` when it fails.  No other operation of the app changes the mode. -/
theorem trackingMode_changes_only_by_modeSet {K M : Type} [LinearOrderedField K]
    (s s' sx : ARState K M) (m : TrackingMode) (oc : VOInitOutcome) (w h : Nat)
    (env : TickEnv K M) (fns : RealFns K) (view : ViewEnv K) (videoSrc : Option String)
    (a b g : Option K) (touches remaining changed : List (K × K)) (now : Int) (dY : K)
    (h1 : s.visualOdometry ≠ none) (h2 : s'.visualOdometry = none)
    (hm : m = TrackingMode.slam ∨ m = TrackingMode.hybrid) :
    (setTrackingMode s m oc w h).trackingMode = m ∧
      (setTrackingMode s' TrackingMode.sensor oc w h).trackingMode = TrackingMode.sensor ∧
      (setTrackingMode s' m VOInitOutcome.succeeds w h).trackingMode = TrackingMode.hybrid ∧
      (setTrackingMode s' m VOInitOutcome.importFails w h).trackingMode
        = TrackingMode.sensor ∧
      (setTrackingMode s' m VOInitOutcome.initRejects w h).trackingMode
        = TrackingMode.sensor ∧
      (animate sx env).1.trackingMode = sx.trackingMode ∧
      (placeCube sx videoSrc).trackingMode = sx.trackingMode ∧
      (resetPose sx).trackingMode = sx.trackingMode ∧
      (onDeviceOrientation sx a b g).trackingMode = sx.trackingMode ∧
      (touchstart fns sx touches).trackingMode = sx.trackingMode ∧
      (touchmove fns view sx touches).trackingMode = sx.trackingMode ∧
      (touchend sx remaining changed now).trackingMode = sx.trackingMode ∧
      (wheelHandler sx dY).trackingMode = sx.trackingMode := by
  refine ⟨?_, ?_, ?_, ?_, ?_, animate_trackingMode sx env, placeCube_trackingMode sx videoSrc,
    resetPose_trackingMode sx, onDeviceOrientation_trackingMode sx a b g,
    touchstart_trackingMode fns sx touches, touchmove_trackingMode fns view sx touches,
    touchend_trackingMode sx remaining changed now, wheelHandler_trackingMode sx dY⟩
  · simp [setTrackingMode, h1]
  · simp [setTrackingMode]
  · rcases hm with hm | hm <;> simp [setTrackingMode, hm, h2, initVisualOdometry]
  · rcases hm with hm | hm <;> simp [setTrackingMode, hm, h2, initVisualOdometry]
  · rcases hm with hm | hm <;> simp [setTrackingMode, hm, h2, initVisualOdometry]

/-- Witness for the amended C3 at concrete states: a state with a VO engine, a
state without one, and the base state for the preservation conjuncts. -/
theorem trackingMode_changes_only_by_modeSet_witness :
    ({ baseState with visualOdometry := some { initOk := true, camConfig := none } }
        : ARState ℚ Unit).visualOdometry ≠ none ∧
      (baseState.visualOdometry = none ∧
        (TrackingMode.slam = TrackingMode.slam ∨ TrackingMode.slam = TrackingMode.hybrid)) ∧
      (setTrackingMode { baseState with
          visualOdometry := some { initOk := true, camConfig := none } }
          TrackingMode.slam VOInitOutcome.succeeds 640 480).trackingMode
        = TrackingMode.slam := by
  refine ⟨by simp, ⟨rfl, Or.inl rfl⟩, ?_⟩
  exact (trackingMode_changes_only_by_modeSet
    { baseState with visualOdometry := some { initOk := true, camConfig := none } }
    baseState baseState TrackingMode.slam VOInitOutcome.succeeds 640 480
    trackingEnv ratFns { cameraFov := 70, screenHeight := 600 } none
    none none none [] [] [] 0 0 (by simp) rfl (Or.inl rfl)).1

/-! ## Orientation-reference helpers for C9 -/

theorem onDeviceOrientation_keeps_reference {K M : Type} [LinearOrderedField K]
    (s : ARState K M) (r : OriSample K) (h : s.initialOrientation = some r)
    (a b g : Option K) :
    (onDeviceOrientation s a b g).initialOrientation = some r := by
  cases a <;> simp [onDeviceOrientation, h]

theorem runOri_keeps_reference {K M : Type} [LinearOrderedField K]
    (s : ARState K M) (r : OriSample K) (h : s.initialOrientation = some r)
    (evs : List (Option K × Option K × Option K)) :
    (runOri s evs).initialOrientation = some r := by
  induction evs generalizing s with
  | nil => exact h
  | cons e rest ih =>
      exact ih _ (onDeviceOrientation_keeps_reference s r h e.1 e.2.1 e.2.2)

theorem runOri_reference_of_none {K M : Type} [LinearOrderedField K]
    (s : ARState K M) (h : s.initialOrientation = none)
    (evs : List (Option K × Option K × Option K)) :
    (runOri s evs).initialOrientation = firstNonNull evs := by
  induction evs generalizing s with
  | nil => simpa [runOri, firstNonNull] using h
  | cons e rest ih =>
      obtain ⟨a, b, g⟩ := e
      cases a with
      | none =>
          have hstep : onDeviceOrientation s none b g = s := rfl
          show (runOri (onDeviceOrientation s none b g) rest).initialOrientation = _
          rw [hstep, firstNonNull]
          exact ih s h
      | some x =>
          have hstep : (onDeviceOrientation s (some x) b g).initialOrientation
              = some { alpha := x, beta := b, gamma := g } := by
            simp [onDeviceOrientation, h]
          show (runOri (onDeviceOrientation s (some x) b g) rest).initialOrientation = _
          rw [firstNonNull]
          exact runOri_keeps_reference _ _ hstep rest

/-- Claim C9: over any sequence of device-orientation events, the first sample
with a non-null primary angle becomes the reference orientation exactly once:
null-alpha samples are discarded leaving the whole state unchanged, later
samples never overwrite an existing reference, and after `resetPose` (which
clears the reference) the next non-null sample redefines it. -/
theorem orientation_reference_once {K M : Type} [LinearOrderedField K]
    (s s' : ARState K M) (evs : List (Option K × Option K × Option K))
    (r : OriSample K) (b g : Option K)
    (h : s.initialOrientation = none) (h' : s'.initialOrientation = some r) :
    onDeviceOrientation s none b g = s ∧
      (runOri s evs).initialOrientation = firstNonNull evs ∧
      (runOri s' evs).initialOrientation = some r ∧
      (resetPose s').initialOrientation = none ∧
      (runOri (resetPose s') evs).initialOrientation = firstNonNull evs :=
  ⟨rfl, runOri_reference_of_none s h evs, runOri_keeps_reference s' r h' evs,
    rfl, runOri_reference_of_none (resetPose s') rfl evs⟩

/-- Witness for C9: a null-alpha event, a first non-null event and a second
non-null event, applied to a state without and a state with a reference. -/
theorem orientation_reference_once_witness :
    (baseState.initialOrientation = none ∧
        ({ baseState with initialOrientation := some oriA } : ARState ℚ Unit).initialOrientation
          = some oriA) ∧
      (runOri baseState
          [(none, none, none), (some 10, some 20, some 30), (some 40, none, none)]
        ).initialOrientation = some oriB := by
  refine ⟨⟨rfl, rfl⟩, ?_⟩
  exact (orientation_reference_once baseState
      { baseState with initialOrientation := some oriA }
      [(none, none, none), (some 10, some 20, some 30), (some 40, none, none)]
      oriA none none rfl rfl).2.1

/-- In hybrid mode, a pose manager that reports tracking suppresses the whole
sensor update (main.js lines 770-773). -/
theorem updateCameraFromSensor_suppressed {K M : Type} [LinearOrderedField K]
    (s1 : ARState K M) (env : TickEnv K M)
    (h1 : s1.trackingMode = TrackingMode.hybrid)
    (h2 : mgrIsTracking s1.cameraPoseManager = true) :
    updateCameraFromSensor s1 env = (s1, []) := by
  cases hio : s1.initialOrientation <;> simp [updateCameraFromSensor, hio, h1, h2]

/-- Claim C1: in hybrid tracking mode, on every animation tick whose VO frame
result reports `tracking = true`, the only pose-source call of the tick is
`applyViewMatrix` with the VO view matrix and smoothing requested — so the
camera pose for the tick is the VO-derived smoothed pose — and
`applyDeviceOrientation` is not invoked (the sensor update is suppressed). -/
theorem hybrid_voTracking_suppresses_sensor {K M : Type} [LinearOrderedField K]
    (s : ARState K M) (env : TickEnv K M) (vo : VOEngine) (mgr : PoseMgr K M)
    (r : VOResult M)
    (hrun : s.isRunning = true) (hmode : s.trackingMode = TrackingMode.hybrid)
    (hvo : s.visualOdometry = some vo) (hvid : s.hasVideo = true)
    (hw : env.videoWidth ≠ 0)
    (hres : env.processFrame (env.videoWidth / 2) (env.videoHeight / 2) = some r)
    (htr : r.tracking = true) (hmgr : s.cameraPoseManager = some mgr) :
    (animate s env).2 = [MgrCall.viewMatrix r.viewMatrix true] ∧
      (animate s env).1.cameraPoseManager
        = some { isTracking := true
                 pose := CameraPose.fromViewMatrix r.viewMatrix mgr.pose true } := by
  have hs1 : processSLAM s env
      = ({ s with cameraPoseManager := some (mgr.applyViewMatrix r.viewMatrix true) },
         [MgrCall.viewMatrix r.viewMatrix true]) := by
    simp [processSLAM, hvo, hvid, hw, hres, htr, hmgr]
  have hsup : updateCameraFromSensor
        { s with cameraPoseManager := some (mgr.applyViewMatrix r.viewMatrix true) } env
      = ({ s with cameraPoseManager := some (mgr.applyViewMatrix r.viewMatrix true) }, []) :=
    updateCameraFromSensor_suppressed _ env hmode rfl
  have c0 : (s.isRunning = false) = False := by simp [hrun]
  have c1 : (s.trackingMode = TrackingMode.slam ∨ s.trackingMode = TrackingMode.hybrid)
      = True := by simp [hmode]
  have c2 : (s.trackingMode = TrackingMode.sensor ∨ s.trackingMode = TrackingMode.hybrid)
      = True := by simp [hmode]
  have hani : animate s env
      = ({ s with cameraPoseManager := some (mgr.applyViewMatrix r.viewMatrix true) },
         [MgrCall.viewMatrix r.viewMatrix true]) := by
    simp only [animate, c0, c1, c2, if_true, if_false, hs1, hsup, List.append_nil]
  rw [hani]
  exact ⟨rfl, rfl⟩

/-- Witness for C1: a concrete hybrid-mode state and an environment whose VO
engine reports a tracking result. -/
theorem hybrid_voTracking_suppresses_sensor_witness :
    (hybridState.isRunning = true ∧
      trackingEnv.videoWidth ≠ 0 ∧
      trackingEnv.processFrame (trackingEnv.videoWidth / 2) (trackingEnv.videoHeight / 2)
        = some { tracking := true, viewMatrix := (), featureCount := 42 }) ∧
      (animate hybridState trackingEnv).2 = [MgrCall.viewMatrix () true] := by
  refine ⟨⟨rfl, by simp [trackingEnv], rfl⟩, ?_⟩
  exact (hybrid_voTracking_suppresses_sensor hybridState trackingEnv
    { initOk := true, camConfig := none }
    { isTracking := false, pose := CameraPose.initialPose }
    { tracking := true, viewMatrix := (), featureCount := 42 }
    rfl rfl rfl rfl (by simp [trackingEnv]) rfl rfl rfl).1

/-- Claim C4: placing an overlay while one already exists leaves exactly one
overlay afterward, and the prior overlay is fully released: its mesh is
detached from the camera, its geometry and material disposed, its texture
disposed, and its video element paused — no prior video element or texture
stays active; the post-state ledgers contain exactly the freshly created
resources. -/
theorem placeCube_replaces_single_overlay {K M : Type} [LinearOrderedField K]
    (s : ARState K M) (videoSrc : Option String) (m v t : Nat)
    (hready : s.isReady = true)
    (hc : s.hudCube = some m) (hv : s.hudVideo = some v) (ht : s.hudVideoTexture = some t)
    (hcc : s.camChildren = [m]) (hvp : s.videosPlaying = [v]) (hta : s.texturesActive = [t])
    (hgl : s.geomsLive = [m]) (hml : s.matsLive = [m])
    (hm : m < s.nextId) (hvn : v < s.nextId) (htn : t < s.nextId) :
    (placeCube s videoSrc).hudCube = some (s.nextId + 2) ∧
      (placeCube s videoSrc).camChildren = [s.nextId + 2] ∧
      (placeCube s videoSrc).videosPlaying = [s.nextId] ∧
      (placeCube s videoSrc).texturesActive = [s.nextId + 1] ∧
      (placeCube s videoSrc).geomsLive = [s.nextId + 2] ∧
      (placeCube s videoSrc).matsLive = [s.nextId + 2] ∧
      m ∉ (placeCube s videoSrc).camChildren ∧
      m ∉ (placeCube s videoSrc).geomsLive ∧
      m ∉ (placeCube s videoSrc).matsLive ∧
      v ∉ (placeCube s videoSrc).videosPlaying ∧
      t ∉ (placeCube s videoSrc).texturesActive := by
  cases videoSrc <;>
    simp [placeCube, cleanupHud, hready, hc, hv, ht, hcc, hvp, hta, hgl, hml] <;>
    omega

/-- Witness for C4: the base state holds overlay mesh 0 / video 1 / texture 2
with a singleton ledger; replacement leaves exactly the fresh resources. -/
theorem placeCube_replaces_single_overlay_witness :
    (baseState.isReady = true ∧ baseState.hudCube = some 0 ∧
        baseState.camChildren = [0] ∧ (0 : Nat) < baseState.nextId) ∧
      (placeCube baseState none).camChildren = [baseState.nextId + 2] := by
  refine ⟨⟨rfl, rfl, rfl, by decide⟩, ?_⟩
  exact (placeCube_replaces_single_overlay baseState none 0 1 2
    rfl rfl rfl rfl rfl rfl rfl rfl rfl (by decide) (by decide) (by decide)).2.1

/-- A single-pointer tap (touchstart then touchend with no remaining touches)
whose net displacement stays under 10px on both axes, arriving 300ms or more
after the previous tap: no placement happens; only the tap time and the
gesture anchors change. -/
theorem tap_noPlace_projections {K M : Type} [LinearOrderedField K] (fns : RealFns K)
    (u : ARState K M) (m0 : Nat) (p q : K × K) (tnow : Int)
    (hm : u.hudCube = some m0)
    (hdx : |q.1 - p.1| < 10) (hdy : |q.2 - p.2| < 10)
    (hlate : ¬(tnow - u.lastTap < 300)) :
    (touchend (touchstart fns u [p]) [] [q] tnow).nextId = u.nextId ∧
      (touchend (touchstart fns u [p]) [] [q] tnow).hudCube = u.hudCube ∧
      (touchend (touchstart fns u [p]) [] [q] tnow).lastTap = tnow ∧
      (touchend (touchstart fns u [p]) [] [q] tnow).isReady = u.isReady := by
  simp [touchstart, touchend, hm, hdx, hdy, hlate]

/-- A tap as above but within 300ms of the previous one triggers `placeCube`:
three fresh resource ids are consumed and the HUD mesh is replaced. -/
theorem tap_place_projections {K M : Type} [LinearOrderedField K] (fns : RealFns K)
    (u : ARState K M) (m0 : Nat) (p q : K × K) (tnow : Int)
    (hm : u.hudCube = some m0) (hready : u.isReady = true)
    (hdx : |q.1 - p.1| < 10) (hdy : |q.2 - p.2| < 10)
    (hsoon : tnow - u.lastTap < 300) :
    (touchend (touchstart fns u [p]) [] [q] tnow).nextId = u.nextId + 3 ∧
      (touchend (touchstart fns u [p]) [] [q] tnow).hudCube = some (u.nextId + 2) := by
  cases hvt : u.hudVideoTexture <;> cases hvd : u.hudVideo <;>
    simp [touchstart, touchend, placeCube, cleanupHud, hm, hready, hdx, hdy, hsoon, hvt, hvd]

/-- Claim C7: two single-pointer tap sequences, each with net displacement
under 10px on both axes, classify as a double-tap and trigger overlay
(re)placement when the second ends within 300ms of the first (three fresh
resource ids are consumed and the HUD mesh is replaced), and do not trigger
placement when spaced 300ms or more apart (e.g. 500ms): the id counter and the
HUD mesh are unchanged. -/
theorem doubleTap_places_only_within_window {K M : Type} [LinearOrderedField K]
    (fns : RealFns K) (s : ARState K M) (m0 : Nat) (p1 q1 p2 q2 : K × K)
    (t1 t2 t2' : Int)
    (hm : s.hudCube = some m0) (hready : s.isReady = true)
    (hd1 : |q1.1 - p1.1| < 10) (hd2 : |q1.2 - p1.2| < 10)
    (hd3 : |q2.1 - p2.1| < 10) (hd4 : |q2.2 - p2.2| < 10)
    (hfirst : 300 ≤ t1 - s.lastTap)
    (hfast : t2 - t1 < 300)
    (hslow : 300 ≤ t2' - t1) :
    (touchend (touchstart fns (touchend (touchstart fns s [p1]) [] [q1] t1) [p2]) [] [q2] t2).nextId
        = s.nextId + 3 ∧
      (touchend (touchstart fns (touchend (touchstart fns s [p1]) [] [q1] t1) [p2]) [] [q2] t2).hudCube
        = some (s.nextId + 2) ∧
      (touchend (touchstart fns (touchend (touchstart fns s [p1]) [] [q1] t1) [p2]) [] [q2] t2').nextId
        = s.nextId ∧
      (touchend (touchstart fns (touchend (touchstart fns s [p1]) [] [q1] t1) [p2]) [] [q2] t2').hudCube
        = some m0 := by
  obtain ⟨e1, e2, e3, e4⟩ :=
    tap_noPlace_projections fns s m0 p1 q1 t1 hm hd1 hd2 (by omega)
  have hm1 : (touchend (touchstart fns s [p1]) [] [q1] t1).hudCube = some m0 := e2.trans hm
  have hr1 : (touchend (touchstart fns s [p1]) [] [q1] t1).isReady = true := e4.trans hready
  have hf2 : t2 - (touchend (touchstart fns s [p1]) [] [q1] t1).lastTap < 300 := by
    rw [e3]; exact hfast
  have hs2 : ¬(t2' - (touchend (touchstart fns s [p1]) [] [q1] t1).lastTap < 300) := by
    rw [e3]; omega
  obtain ⟨f1, f2⟩ := tap_place_projections fns _ m0 p2 q2 t2 hm1 hr1 hd3 hd4 hf2
  obtain ⟨g1, g2, g3, g4⟩ := tap_noPlace_projections fns _ m0 p2 q2 t2' hm1 hd3 hd4 hs2
  exact ⟨f1.trans (by rw [e1]), f2.trans (by rw [e1]), g1.trans e1, g2.trans hm1⟩

/-- Witness for C7 at the spec's concrete gesture: taps (100,100)→(103,102)
and (100,100)→(100,100), first ending at t=1000ms; a second tap at 1200ms
(within 300ms) places, at 1500ms (500ms later) does not. -/
theorem doubleTap_places_only_within_window_witness :
    ((1200 : Int) - 1000 < 300 ∧ (300 : Int) ≤ 1500 - 1000 ∧
        |(103 : ℚ) - 100| < 10 ∧ |(102 : ℚ) - 100| < 10) ∧
      (touchend (touchstart ratFns
          (touchend (touchstart ratFns baseState [((100 : ℚ), (100 : ℚ))]) []
            [((103 : ℚ), (102 : ℚ))] 1000)
          [((100 : ℚ), (100 : ℚ))]) [] [((100 : ℚ), (100 : ℚ))] 1200).nextId
        = baseState.nextId + 3 ∧
      (touchend (touchstart ratFns
          (touchend (touchstart ratFns baseState [((100 : ℚ), (100 : ℚ))]) []
            [((103 : ℚ), (102 : ℚ))] 1000)
          [((100 : ℚ), (100 : ℚ))]) [] [((100 : ℚ), (100 : ℚ))] 1500).hudCube
        = some 0 := by
  have h := doubleTap_places_only_within_window ratFns baseState 0
    (100, 100) (103, 102) (100, 100) (100, 100) 1000 1200 1500
    rfl rfl (by norm_num) (by norm_num) (by norm_num) (by norm_num)
    (by decide) (by decide) (by decide)
  exact ⟨⟨by decide, by decide, by norm_num, by norm_num⟩, h.1, h.2.2.2⟩

/-- Claim C5: a pinch move on an existing overlay with baseline scale `s0`,
initial inter-point distance `d0 > 0` and current touch points `t0`, `t1`
sets the overlay scale to `s0 * (d / d0)` clamped to `[0.3, 20.0]`, where `d`
is the Euclidean inter-point distance; the desktop wheel path clamps its
result to `[0.3, 5.0]`. -/
theorem pinch_and_wheel_scale {M : Type} (fns : RealFns ℝ) (view : ViewEnv ℝ)
    (s : ARState ℝ M) (t0 t1 : ℝ × ℝ) (dY : ℝ) (m0 : Nat)
    (hfns : IsRealFns fns)
    (hm : s.hudCube = some m0) (hp : s.gesture.isPinching = true)
    (hd0 : 0 < s.gesture.pinchStartDist) :
    (touchmove fns view s [t0, t1]).hudCubeScale
        = max (3 / 10) (min 20 (s.gesture.pinchStartScale *
            (Real.sqrt ((t0.1 - t1.1) * (t0.1 - t1.1) + (t0.2 - t1.2) * (t0.2 - t1.2))
              / s.gesture.pinchStartDist))) ∧
      (3 / 10 : ℝ) ≤ (wheelHandler s dY).hudCubeBaseScale ∧
      (wheelHandler s dY).hudCubeBaseScale ≤ 5 := by
  refine ⟨?_, ?_, ?_⟩
  · simp [touchmove, hm, hp, getTouchDistance, hfns.1]
  · simp only [wheelHandler, hm]
    simp only [reduceCtorEq, if_false]
    exact le_max_left _ _
  · simp only [wheelHandler, hm]
    simp only [reduceCtorEq, if_false]
    exact max_le (by norm_num) (min_le_left _ _)

/-- Witness for C5: baseline distance 100, baseline scale 1, new touch points
(0,0) and (150,0) (distance 150) give scale 1.5; a wheel step stays in
[0.3, 5]. -/
theorem pinch_and_wheel_scale_witness :
    ((0 : ℝ) < (pinchState ℝ).gesture.pinchStartDist ∧
        (pinchState ℝ).gesture.isPinching = true) ∧
      (touchmove { sqrt := Real.sqrt, tan := Real.tan, piVal := Real.pi }
          { cameraFov := 70, screenHeight := 600 } (pinchState ℝ)
          [((0 : ℝ), (0 : ℝ)), ((150 : ℝ), (0 : ℝ))]).hudCubeScale = 3 / 2 := by
  have h := (pinch_and_wheel_scale { sqrt := Real.sqrt, tan := Real.tan, piVal := Real.pi }
    { cameraFov := 70, screenHeight := 600 } (pinchState ℝ)
    (0, 0) (150, 0) 1 0 ⟨rfl, rfl, rfl⟩ rfl rfl (by norm_num [pinchState, dragState])).1
  refine ⟨⟨by norm_num [pinchState, dragState], rfl⟩, ?_⟩
  rw [h]
  have hs : Real.sqrt ((((0 : ℝ), (0 : ℝ)).1 - ((150 : ℝ), (0 : ℝ)).1)
        * (((0 : ℝ), (0 : ℝ)).1 - ((150 : ℝ), (0 : ℝ)).1)
      + (((0 : ℝ), (0 : ℝ)).2 - ((150 : ℝ), (0 : ℝ)).2)
        * (((0 : ℝ), (0 : ℝ)).2 - ((150 : ℝ), (0 : ℝ)).2)) = 150 := by
    rw [show (((0 : ℝ), (0 : ℝ)).1 - ((150 : ℝ), (0 : ℝ)).1)
          * (((0 : ℝ), (0 : ℝ)).1 - ((150 : ℝ), (0 : ℝ)).1)
        + (((0 : ℝ), (0 : ℝ)).2 - ((150 : ℝ), (0 : ℝ)).2)
          * (((0 : ℝ), (0 : ℝ)).2 - ((150 : ℝ), (0 : ℝ)).2) = 150 ^ 2 by norm_num]
    exact Real.sqrt_sq (by norm_num)
  rw [hs]
  norm_num [pinchState, dragState]

/-- Claim C6: a drag move with one finger at `t` moves the overlay to
`(startX + dx * k, startY - dy * k)` (vertical axis inverted), with
`(dx, dy) = t - dragStart` and `k = 2 * 1.5 * tan(fovRad / 2) / screenHeight`
the scalar of `screenPixelToLocal` for the camera's vertical field of view
(`fovRad = cameraFov * pi / 180`) and the fixed overlay depth 1.5. -/
theorem drag_moves_overlay {M : Type} (fns : RealFns ℝ) (view : ViewEnv ℝ)
    (s : ARState ℝ M) (t : ℝ × ℝ) (m0 : Nat)
    (hfns : IsRealFns fns)
    (hm : s.hudCube = some m0) (hd : s.gesture.isDragging = true) :
    (touchmove fns view s [t]).hudCubePosX
        = s.gesture.objStartX + (t.1 - s.gesture.dragStartX)
            * (2 * (3 / 2) * Real.tan (view.cameraFov * Real.pi / 180 / 2)
                / view.screenHeight) ∧
      (touchmove fns view s [t]).hudCubePosY
        = s.gesture.objStartY - (t.2 - s.gesture.dragStartY)
            * (2 * (3 / 2) * Real.tan (view.cameraFov * Real.pi / 180 / 2)
                / view.screenHeight) := by
  constructor <;>
    simp [touchmove, hm, hd, screenPixelToLocal, degToRad, hfns.2.1, hfns.2.2]

/-- Witness for C6: dragging from (100, 100) to (103, 102) with a 70-degree
camera over a 600px-high screen. -/
theorem drag_moves_overlay_witness :
    ((dragState ℝ).gesture.isDragging = true ∧ (dragState ℝ).hudCube = some 0) ∧
      (touchmove { sqrt := Real.sqrt, tan := Real.tan, piVal := Real.pi }
          { cameraFov := 70, screenHeight := 600 } (dragState ℝ)
          [((103 : ℝ), (102 : ℝ))]).hudCubePosX
        = (dragState ℝ).gesture.objStartX
            + (((103 : ℝ), (102 : ℝ)).1 - (dragState ℝ).gesture.dragStartX)
              * (2 * (3 / 2) * Real.tan ((70 : ℝ) * Real.pi / 180 / 2) / 600) :=
  ⟨⟨rfl, rfl⟩,
    (drag_moves_overlay { sqrt := Real.sqrt, tan := Real.tan, piVal := Real.pi }
      { cameraFov := 70, screenHeight := 600 } (dragState ℝ) (103, 102) 0
      ⟨rfl, rfl, rfl⟩ rfl rfl).1⟩

/-- Claim C8: for the chroma-key compositing rule with parameters `keyColor`,
`similarity ≥ 0` and `smoothness > 0`, a sampled pixel equal to `keyColor`
yields output alpha 0, and a sampled pixel whose chroma-subspace Euclidean
distance from `keyColor` is at least `similarity + smoothness` yields output
alpha equal to the source pixel's alpha, unmodified. -/
theorem chromaKey_alpha_extremes (fns : RealFns ℝ) (keyColor texColor : ℝ × ℝ × ℝ)
    (similarity smoothness texAlpha : ℝ)
    (hfns : IsRealFns fns)
    (hsim : 0 ≤ similarity) (hsm : 0 < smoothness)
    (hfar : similarity + smoothness ≤ chromaDist fns texColor keyColor) :
    fragAlpha fns keyColor similarity smoothness keyColor texAlpha = 0 ∧
      fragAlpha fns keyColor similarity smoothness texColor texAlpha = texAlpha := by
  constructor
  · have hdist0 : chromaDist fns keyColor keyColor = 0 := by
      simp [chromaDist, hfns.1]
    simp only [fragAlpha, hdist0, smoothstep]
    have harg : (0 - similarity) / (similarity + smoothness - similarity) ≤ 0 := by
      apply div_nonpos_of_nonpos_of_nonneg
      · linarith
      · linarith
    rw [max_eq_left harg, min_eq_right (by norm_num : (0 : ℝ) ≤ 1)]
    ring
  · simp only [fragAlpha, smoothstep]
    have hq : (1 : ℝ) ≤ (chromaDist fns texColor keyColor - similarity)
        / (similarity + smoothness - similarity) := by
      rw [le_div_iff₀ (by linarith)]
      linarith
    rw [max_eq_right (le_trans zero_le_one hq), min_eq_left hq]
    ring

/-- Witness for C8 with the shader's default parameters: key color pure green
(0,1,0), similarity 0.4, smoothness 0.1; the sampled pixel (0,0,0) sits at
chroma distance sqrt(0.285122) ≥ 0.5 from the key. -/
theorem chromaKey_alpha_extremes_witness :
    ((0 : ℝ) ≤ 0.4 ∧ (0 : ℝ) < 0.1 ∧
        (0.4 : ℝ) + 0.1
          ≤ chromaDist { sqrt := Real.sqrt, tan := Real.tan, piVal := Real.pi }
              ((0 : ℝ), (0 : ℝ), (0 : ℝ)) ((0 : ℝ), (1 : ℝ), (0 : ℝ))) ∧
      fragAlpha { sqrt := Real.sqrt, tan := Real.tan, piVal := Real.pi }
          ((0 : ℝ), (1 : ℝ), (0 : ℝ)) 0.4 0.1 ((0 : ℝ), (1 : ℝ), (0 : ℝ)) (1 / 2) = 0 ∧
      fragAlpha { sqrt := Real.sqrt, tan := Real.tan, piVal := Real.pi }
          ((0 : ℝ), (1 : ℝ), (0 : ℝ)) 0.4 0.1 ((0 : ℝ), (0 : ℝ), (0 : ℝ)) (1 / 2) = 1 / 2 := by
  have hfar : (0.4 : ℝ) + 0.1
      ≤ chromaDist { sqrt := Real.sqrt, tan := Real.tan, piVal := Real.pi }
          ((0 : ℝ), (0 : ℝ), (0 : ℝ)) ((0 : ℝ), (1 : ℝ), (0 : ℝ)) := by
    simp only [chromaDist]
    have h2 : (0.4 : ℝ) + 0.1 = Real.sqrt ((1 / 2) ^ 2) := by
      rw [Real.sqrt_sq (by norm_num)]
      norm_num
    rw [h2]
    apply Real.sqrt_le_sqrt
    simp only [RGBtoUV]
    norm_num
  have h := chromaKey_alpha_extremes { sqrt := Real.sqrt, tan := Real.tan, piVal := Real.pi }
    ((0 : ℝ), (1 : ℝ), (0 : ℝ)) ((0 : ℝ), (0 : ℝ), (0 : ℝ)) 0.4 0.1 (1 / 2)
    ⟨rfl, rfl, rfl⟩ (by norm_num) (by norm_num) hfar
  exact ⟨⟨by norm_num, by norm_num, hfar⟩, h.1, h.2⟩
